import Mathlib

/-!
Verification of the Musik streaming backend against its specification.

The development shallowly embeds the two source files:
* `src/services/zalopay.ts` — the ZaloPay payment-gateway client
  (`createOrder`, `receiveOrderCallback`, `getOrderStatus`);
* the controllers file (artist CRUD, federated search handlers, song CRUD).

External collaborators (supabase, redis, backblaze, cloudinary, axios,
`crypto.createHmac`, `JSON.stringify`) are modelled as explicit inputs:
query results become `QueryResult` values, the cache read becomes an
`Except`-valued input (an exception-or-value), and the keyed hash becomes a
function argument.  JavaScript values that matter to the claims (JSON
payloads, truthiness) are modelled by small inductive types.
-/

namespace Musik

/-- JSON-like values, the shape of payloads exchanged with the store,
the cache and the HTTP layer. -/
inductive Json where
  | null : Json
  | str : String → Json
  | num : Int → Json
  | arr : List Json → Json
  | obj : List (String × Json) → Json

/-- A supabase query result: a `data` field (possibly null) and an
`error` field carrying the error message when the query failed, as in
`const { data, error } = await supabase...`. -/
structure QueryResult where
  data : Option Json
  error : Option String

/-- The `data` field as it is serialized by `res.json` (JS `null` when
absent). -/
def QueryResult.jdata (r : QueryResult) : Json := r.data.getD Json.null

/-! ### Decimal rendering of JS numbers

`createOrder` interpolates the counter into a template literal and the
constructor parses the last six characters of `Date.now().toString()`.
We model the decimal rendering of a non-negative JS number explicitly.
The implementation is fuel-based structural recursion so that it
evaluates by kernel reduction. -/

/-- The character for one decimal digit (`0`–`9`). -/
def digitChar (d : Nat) : Char :=
  if d = 0 then '0' else if d = 1 then '1' else if d = 2 then '2'
  else if d = 3 then '3' else if d = 4 then '4' else if d = 5 then '5'
  else if d = 6 then '6' else if d = 7 then '7' else if d = 8 then '8'
  else '9'

/-- Fuel-based worker for `natToChars`; `fuel` only has to dominate the
number of digits. -/
def natToCharsGo : Nat → Nat → List Char
  | 0, _ => []
  | fuel + 1, n =>
    if n < 10 then [digitChar n]
    else natToCharsGo fuel (n / 10) ++ [digitChar (n % 10)]

/-- The decimal character sequence of `n`, most significant digit
first (the JS `Number.prototype.toString` of a non-negative integer). -/
def natToChars (n : Nat) : List Char := natToCharsGo (n + 1) n

/-- The decimal digits of `n` packaged as a `String`. -/
def natToString (n : Nat) : String := ⟨natToChars n⟩

/-- The numeric value of one decimal digit character (its code point
minus 48), as `parseInt` reads it. -/
def charDigitVal (c : Char) : Nat := c.toNat - 48

/-- The number denoted by a decimal digit string, as `parseInt` reads
it. -/
def charsToNat (l : List Char) : Nat :=
  l.foldl (fun acc c => acc * 10 + charDigitVal c) 0

/-- The last `k` characters of a character list (JS `String.prototype.slice`
with a negative index). -/
def takeLast (k : Nat) (l : List Char) : List Char := l.drop (l.length - k)

/-- JS `String.prototype.padStart(2, "0")`. -/
def padStart2 (l : List Char) : List Char := List.replicate (2 - l.length) '0' ++ l

/-! ### ZaloPay payment-gateway client (`src/services/zalopay.ts`) -/

/-- A callback verification result (`ZaloResult`): `return_code` and
`return_message`. -/
structure ZaloResult where
  return_code : Int
  return_message : String
deriving DecidableEq, Repr

/-- Model of `receiveOrderCallback(dataStr, reqMac)` (zalopay.ts lines 71–99).
The keyed hash `createHmac("sha256", key2).update(dataStr).digest("hex")`
is modelled by the function argument `hmac`; an `Except.error` value
models `createHmac`/`update`/`digest` throwing, which the `try/catch`
turns into a `return_code 0` result carrying the exception message.
The function itself is total: it always returns a `ZaloResult`. -/
def receiveOrderCallback (hmac : String → String → Except String String)
    (key2 : String) (dataStr reqMac : String) : ZaloResult :=
  match hmac key2 dataStr with
  | Except.ok mac =>
    if reqMac ≠ mac then
      { return_code := -1, return_message := "mac not equal" }
    else
      { return_code := 1, return_message := "success" }
  | Except.error msg => { return_code := 0, return_message := msg }

/-- One item of an order (`OrderItem`): unit price and quantity. -/
structure OrderItem where
  itemprice : Int
  itemquantity : Int
deriving DecidableEq, Repr

/-- The order record built by `createOrder` (`ZaloOrder`). -/
structure ZaloOrder where
  app_id : String
  app_trans_id : String
  app_user : String
  app_time : Nat
  item : String
  embed_data : String
  amount : Int
  description : String
  bank_code : String
  mac : String
deriving DecidableEq, Repr

/-- The pipe-joined tuple the order MAC is computed over
(zalopay.ts lines 45–58). -/
def orderMacData (o : ZaloOrder) : String :=
  o.app_id ++ "|" ++ o.app_trans_id ++ "|" ++ o.app_user ++ "|" ++
    toString o.amount ++ "|" ++ natToString o.app_time ++ "|" ++
    o.embed_data ++ "|" ++ o.item

/-- The `YYMMDD` date stamp of `app_trans_id`:
`` `${date.getFullYear().toString().slice(-2)}${String(date.getMonth() + 1).padStart(2, "0")}${String(date.getDate()).padStart(2, "0")}` ``
(zalopay.ts line 33).  `month` is the 0-based `getMonth()` value. -/
structure JsDate where
  year : Nat
  month : Nat
  day : Nat
deriving DecidableEq, Repr

/-- Character sequence of the `YYMMDD` date stamp. -/
def dateStampChars (d : JsDate) : List Char :=
  takeLast 2 (natToChars d.year) ++ padStart2 (natToChars (d.month + 1)) ++
    padStart2 (natToChars d.day)

/-- The transaction identifier `` `${YYMMDD}_${orderID}` `` built by
`createOrder` (zalopay.ts line 33). -/
def appTransId (d : JsDate) (seq : Nat) : String :=
  ⟨dateStampChars d ++ '_' :: natToChars seq⟩

/-- The seeding of the order counter in the `ZaloPay` constructor:
`parseInt(Date.now().toString().slice(-6))` (zalopay.ts line 25). -/
def initOrderID (nowMs : Nat) : Nat := charsToNat (takeLast 6 (natToChars nowMs))

/-- The value returned by `createOrder` on success:
`{ ...res.data, app_trans_id: order.app_trans_id }` (zalopay.ts line 68). -/
structure ZaloCreateResult where
  data : Json
  app_trans_id : String

/-- Model of `createOrder(user_id, items)` (zalopay.ts lines 28–69) as a state
transformer on the process-local counter `this.orderID`.  `hmac` models
the keyed hash, `stringifyItems`/`embedStr` model the two
`JSON.stringify` calls, and `gateway` models `axios.post` to the
sandbox endpoint — an `Except.error` is a rejected HTTP call, which the
(un-caught) `await` propagates to the caller.  The first component of
the result is the counter after the call; it is incremented first and
never rolled back. -/
def createOrder (app_id key1 : String)
    (hmac : String → String → Except String String)
    (gateway : ZaloOrder → Except String Json)
    (stringifyItems : List OrderItem → String) (embedStr : String)
    (orderID : Nat) (d : JsDate) (nowMs : Nat)
    (user_id : String) (items : List OrderItem) :
    Nat × Except String ZaloCreateResult :=
  let oid := orderID + 1
  let atid := appTransId d oid
  let base : ZaloOrder :=
    { app_id := app_id
      app_trans_id := atid
      app_user := user_id
      app_time := nowMs
      item := stringifyItems items
      embed_data := embedStr
      amount := items.foldl (fun acc i => acc + i.itemprice * i.itemquantity) 0
      description := "Hust Musik Premium - Payment for order " ++ natToString oid
      bank_code := "zalopayapp"
      mac := "" }
  (oid,
    match hmac key1 (orderMacData base) with
    | Except.error e => Except.error e
    | Except.ok m =>
      match gateway { base with mac := m } with
      | Except.error e => Except.error e
      | Except.ok g => Except.ok { data := g, app_trans_id := atid })

/-! ### Federated search handlers (search controller)

Each handler resolves the caller role, consults the redis cache unless
the role is `"Admin"`, and on a miss queries the store and (again only
for non-admin callers) writes the response data to the cache with a
300-second expiry.  The cache read `await redis.get(key)` is modelled
by an `Except`-valued input: `Except.error` is a rejected promise,
which — there being no `try/catch` around the call — propagates out of
the handler, so the handler result itself is `Except`-valued. -/

/-- Outcome of one search/list request: HTTP status, response body, and
the observable cache/store effects of the request. -/
structure SearchOutcome where
  status : Nat
  body : Json
  cacheRead : Bool
  cacheWrite : Option (String × Json)
  storeQueried : Bool

/-- Cache key of `searchSongs`:
`` `searches?cat=songs&term=${term}&page=${page}&limit=${limit}` ``. -/
def songsSearchKey (term : String) (page limit : Nat) : String :=
  "searches?cat=songs&term=" ++ term ++ "&page=" ++ natToString page ++
    "&limit=" ++ natToString limit

/-- Miss path of `searchSongs` (controller lines 231–246): query the
store; on error respond 500 with the message; on success respond
`{ data }` and, for non-admin callers, write the *raw* `data` value to
the cache (`redis.set(key, data, { ex: 300 })`, line 243). -/
def searchSongsMiss (role term : String) (page limit : Nat)
    (query : QueryResult) (didRead : Bool) : SearchOutcome :=
  match query.error with
  | some m =>
    { status := 500, body := Json.obj [("error", Json.str m)]
      cacheRead := didRead, cacheWrite := none, storeQueried := true }
  | none =>
    { status := 200, body := Json.obj [("data", query.jdata)]
      cacheRead := didRead
      cacheWrite :=
        if role ≠ "Admin" then some (songsSearchKey term page limit, query.jdata)
        else none
      storeQueried := true }

/-- Model of the `searchSongs` handler (controller lines 214–247).
`cacheGet` is the settled `redis.get(key)` promise, `query` the settled
supabase query. -/
def searchSongs (role term : String) (page limit : Nat)
    (cacheGet : Except String (Option Json)) (query : QueryResult) :
    Except String SearchOutcome :=
  if role ≠ "Admin" then
    match cacheGet with
    | Except.error e => Except.error e
    | Except.ok (some c) =>
      Except.ok { status := 200, body := c, cacheRead := true
                  cacheWrite := none, storeQueried := false }
    | Except.ok none => Except.ok (searchSongsMiss role term page limit query true)
  else
    Except.ok (searchSongsMiss role term page limit query false)

/-- Cache key of `searchDefault`: `` `searches?term=${term}` ``. -/
def defaultSearchKey (term : String) : String := "searches?term=" ++ term

/-- The aggregated error-message list of the five-way default search:
`[songError, artistError, albumError, playlistError, userError].filter(Boolean)`
followed by `.map(e => e?.message)` (controller lines 184–193). -/
def defaultErrors (songs artists albums playlists users : QueryResult) : List String :=
  [songs.error, artists.error, albums.error, playlists.error, users.error].filterMap id

/-- Miss path of `searchDefault` (controller lines 147–211): run the
five sub-queries; if any errored respond 500 with the aggregated
message list and write nothing; otherwise respond the merged object
and, for non-admin callers, cache the *same wrapped payload*
(`redis.set(key, { data: {...} }, { ex: 300 })`, lines 198–202). -/
def searchDefaultMiss (role term : String)
    (songs artists albums playlists users : QueryResult) (didRead : Bool) :
    SearchOutcome :=
  let errs := defaultErrors songs artists albums playlists users
  if errs ≠ [] then
    { status := 500, body := Json.obj [("error", Json.arr (errs.map Json.str))]
      cacheRead := didRead, cacheWrite := none, storeQueried := true }
  else
    let payload := Json.obj [("data", Json.obj
      [("songs", songs.jdata), ("artists", artists.jdata),
       ("albums", albums.jdata), ("playlists", playlists.jdata),
       ("users", users.jdata)])]
    { status := 200, body := payload, cacheRead := didRead
      cacheWrite := if role ≠ "Admin" then some (defaultSearchKey term, payload) else none
      storeQueried := true }

/-- Model of the `searchDefault` handler (controller lines 132–212). -/
def searchDefault (role term : String) (cacheGet : Except String (Option Json))
    (songs artists albums playlists users : QueryResult) :
    Except String SearchOutcome :=
  if role ≠ "Admin" then
    match cacheGet with
    | Except.error e => Except.error e
    | Except.ok (some c) =>
      Except.ok { status := 200, body := c, cacheRead := true
                  cacheWrite := none, storeQueried := false }
    | Except.ok none =>
      Except.ok (searchDefaultMiss role term songs artists albums playlists users true)
  else
    Except.ok (searchDefaultMiss role term songs artists albums playlists users false)

/-! ### Song controller: list, update, create links, delete -/

/-- Model of the `getAllSongs` handler (song controller lines 404–430).
Every caller goes through the cache (no role gate here); on a miss the
row data is cached double-serialized:
`redis.set(key, JSON.stringify(data), { ex: 300 })`. `stringify`
models `JSON.stringify`. -/
def getAllSongs (stringify : Json → String) (page limit : Nat)
    (cacheGet : Except String (Option Json)) (query : QueryResult) :
    Except String SearchOutcome :=
  match cacheGet with
  | Except.error e => Except.error e
  | Except.ok (some c) =>
    Except.ok { status := 200, body := c, cacheRead := true
                cacheWrite := none, storeQueried := false }
  | Except.ok none =>
    match query.error with
    | some m =>
      Except.ok { status := 500, body := Json.obj [("error", Json.str m)]
                  cacheRead := true, cacheWrite := none, storeQueried := true }
    | none =>
      Except.ok
        { status := 200, body := Json.obj [("data", query.jdata)]
          cacheRead := true
          cacheWrite := some
            ("songs?page=" ++ natToString page ++ "&limit=" ++ natToString limit,
             Json.str (stringify query.jdata))
          storeQueried := true }

/-! ### Sparse update payloads (`updateArtist`, `updateSong`)

Request-body fields are JS values; a missing field destructures to
`undefined`, modelled by `Option.none`.  The conditional spread
`...(field && { field })` includes the key exactly when the value is
truthy; `updateArtist` additionally spreads `name` unconditionally
(`{ name, ... }`, artist controller line 43).  A payload entry whose
value is `none` is a key that is present with value `undefined`; the
supabase client serializes the payload with `JSON.stringify`, which
drops `undefined`-valued keys — `sentFields` models that step. -/

/-- JS values a request-body field can hold, with their truthiness. -/
inductive JVal where
  | str : String → JVal
  | num : Int → JVal
  | jnull : JVal
deriving DecidableEq, Repr

/-- JS truthiness of a defined value: non-empty strings and non-zero
numbers are truthy, `null` is falsy. -/
def JVal.truthy : JVal → Bool
  | JVal.str s => s != ""
  | JVal.num n => n != 0
  | JVal.jnull => false

/-- Conditional spread `...(v && { k: v })`: present and truthy values
contribute the key, everything else contributes nothing. -/
def spreadIf (k : String) (v : Option JVal) : List (String × Option JVal) :=
  match v with
  | some x => if x.truthy then [(k, some x)] else []
  | none => []

/-- The fields a request body can supply to `updateArtist`
(artist controller line 40). -/
structure ArtistUpdateBody where
  name : Option JVal
  description : Option JVal
  avatarurl : Option JVal
  country : Option JVal
deriving DecidableEq, Repr

/-- The update object built by `updateArtist` (artist controller lines
42–47): `name` unconditionally, the rest by conditional spread. -/
def updateArtistPayload (b : ArtistUpdateBody) : List (String × Option JVal) :=
  ("name", b.name) ::
    (spreadIf "description" b.description ++ spreadIf "avatarurl" b.avatarurl ++
      spreadIf "country" b.country)

/-- The fields a request body can supply to `updateSong`
(song controller lines 530–538). -/
structure SongUpdateBody where
  title : Option JVal
  description : Option JVal
  thumbnailurl : Option JVal
  duration : Option JVal
  releasedate : Option JVal
  genre : Option JVal
  views : Option JVal
deriving DecidableEq, Repr

/-- The update object built by `updateSong` (song controller lines
540–548): every field by conditional spread. -/
def updateSongPayload (b : SongUpdateBody) : List (String × Option JVal) :=
  spreadIf "title" b.title ++ spreadIf "description" b.description ++
    spreadIf "thumbnailurl" b.thumbnailurl ++ spreadIf "duration" b.duration ++
    spreadIf "releasedate" b.releasedate ++ spreadIf "genre" b.genre ++
    spreadIf "views" b.views

/-- The key/value pairs actually serialized to the store:
`JSON.stringify` drops keys whose value is `undefined`. -/
def sentFields (payload : List (String × Option JVal)) : List (String × JVal) :=
  payload.filterMap fun kv => kv.2.map fun v => (kv.1, v)

/-! ### Artist links created by `addSong` -/

/-- The `relation` tag of an `artistssongs` link row. -/
inductive Relation where
  | Primary : Relation
  | Featured : Relation
deriving DecidableEq, Repr

/-- One `artistssongs` link row inserted by `addSong`. -/
structure LinkRow where
  songid : String
  artistid : String
  relation : Relation
deriving DecidableEq, Repr

/-- Index-aware map over the artist list, the shape of
`artists.map((artistid, index) => ...)`: `index` is the position of
`artistid` in the supplied order. -/
def addSongLinksFrom (songid : String) : Nat → List String → List LinkRow
  | _, [] => []
  | index, artistid :: rest =>
    { songid := songid, artistid := artistid
      relation := if index = 0 then Relation.Primary else Relation.Featured } ::
      addSongLinksFrom songid (index + 1) rest

/-- The link rows `addSong` inserts for the supplied artist id list
(song controller lines 601–607):
`artists.map((artistid, index) => insert({songid, artistid, relation: index === 0 ? "Primary" : "Featured"}))`. -/
def addSongLinks (songid : String) (artists : List String) : List LinkRow :=
  addSongLinksFrom songid 0 artists

/-! ### Song deletion -/

/-- The blob-store object name `deleteSong` passes to
`backblaze.deleteObject` (song controller line 643):
`data.title + ".mp3"`. -/
def deleteSongBlobKey (title : String) : String := title ++ ".mp3"

/-- The canonical object key used by the presigned-URL handlers
(song controller lines 480 and 515):
`` `${data.artist.name}/${data.song.title}.mp3` ``. -/
def presignedFileName (artistName songTitle : String) : String :=
  artistName ++ "/" ++ songTitle ++ ".mp3"

/-- Outcome of a `deleteSong` request: HTTP status, body, and the keys
passed to the fire-and-forget blob/asset deletions (the handler never
awaits those calls, so their results are not inputs of the model). -/
structure DeleteOutcome where
  status : Nat
  body : Json
  blobDeleteKey : Option String
  cloudinaryDeleteKey : Option String

/-- Model of the `deleteSong` handler (song controller lines 628–647).
`delRes` is the settled supabase delete returning the removed row's
`title`, or the store error message. -/
def deleteSong (id : String) (delRes : Except String String) : DeleteOutcome :=
  match delRes with
  | Except.error m =>
    { status := 500, body := Json.obj [("error", Json.str m)]
      blobDeleteKey := none, cloudinaryDeleteKey := none }
  | Except.ok title =>
    { status := 202
      body := Json.obj [("message", Json.str ("Song " ++ id ++ " is being deleted"))]
      blobDeleteKey := some (deleteSongBlobKey title)
      cloudinaryDeleteKey := some ("i-" ++ id) }

/-! ### Concrete collaborator instances used to exercise the theorems -/

/-- A deterministic stand-in keyed hash that always succeeds. -/
def hmacTag : String → String → Except String String :=
  fun k s => Except.ok ("mac:" ++ k ++ ":" ++ s)

/-- A keyed hash whose call throws. -/
def hmacThrow : String → String → Except String String :=
  fun _ _ => Except.error "digest failure"

/-- An upstream gateway that accepts every order. -/
def gatewayOk : ZaloOrder → Except String Json := fun _ => Except.ok Json.null

/-- An upstream gateway whose HTTP call always rejects. -/
def gatewayDown : ZaloOrder → Except String Json :=
  fun _ => Except.error "network down"

/-- A stand-in `JSON.stringify` for item lists. -/
def itemsStr : List OrderItem → String := fun _ => "[]"

/-- A stand-in `JSON.stringify` for cached row data. -/
def rowsStr : Json → String := fun _ => "rows"

/-! ## Supporting lemmas -/

/-- The fuel argument of `natToCharsGo` is irrelevant once it dominates
the input. -/
theorem natToCharsGo_stable :
    ∀ fuel fuel' n : Nat, n < fuel → n < fuel' →
      natToCharsGo fuel n = natToCharsGo fuel' n := by
  intro fuel
  induction fuel with
  | zero => intro fuel' n h; omega
  | succ f ih =>
    intro fuel' n h h'
    cases fuel' with
    | zero => omega
    | succ f' =>
      simp only [natToCharsGo]
      by_cases hn : n < 10
      · simp [hn]
      · simp only [hn, if_false]
        have hdiv : n / 10 < n := Nat.div_lt_self (by omega) (by omega)
        rw [ih f' (n / 10) (by omega) (by omega)]

/-- Unfolding equation for `natToChars`. -/
theorem natToChars_eq (n : Nat) :
    natToChars n =
      if n < 10 then [digitChar n]
      else natToChars (n / 10) ++ [digitChar (n % 10)] := by
  by_cases hn : n < 10
  · simp [natToChars, natToCharsGo, hn]
  · simp only [hn, if_false]
    have h1 : natToCharsGo (n + 1) n = natToCharsGo n (n / 10) ++ [digitChar (n % 10)] := by
      simp [natToCharsGo, hn]
    show natToCharsGo (n + 1) n = natToCharsGo (n / 10 + 1) (n / 10) ++ [digitChar (n % 10)]
    rw [h1, natToCharsGo_stable n (n / 10 + 1) (n / 10)
      (by omega) (by omega)]

/-- Reading back a digit character yields the digit. -/
theorem charDigitVal_digitChar (d : Nat) (h : d < 10) :
    charDigitVal (digitChar d) = d := by
  interval_cases d <;> rfl

/-- Digit characters are never the underscore separator. -/
theorem digitChar_ne_underscore (d : Nat) : digitChar d ≠ '_' := by
  unfold digitChar
  repeat' split
  all_goals decide

/-- Appending one character to a digit string multiplies the value by
ten and adds the digit. -/
theorem charsToNat_append_one (l : List Char) (c : Char) :
    charsToNat (l ++ [c]) = charsToNat l * 10 + charDigitVal c := by
  simp [charsToNat, List.foldl_append]

/-- Round trip: `parseInt` of the decimal rendering of `n` is `n`. -/
theorem charsToNat_natToChars (n : Nat) : charsToNat (natToChars n) = n := by
  induction n using Nat.strong_induction_on with
  | _ n ih =>
    rw [natToChars_eq]
    by_cases hn : n < 10
    · simp only [hn, if_true]
      show charsToNat [digitChar n] = n
      simp [charsToNat, charDigitVal_digitChar n hn]
    · simp only [hn, if_false]
      have hdiv : n / 10 < n := Nat.div_lt_self (by omega) (by omega)
      rw [charsToNat_append_one, ih (n / 10) hdiv,
        charDigitVal_digitChar (n % 10) (Nat.mod_lt n (by omega))]
      omega

/-- The decimal rendering is injective. -/
theorem natToChars_injective {a b : Nat} (h : natToChars a = natToChars b) :
    a = b := by
  have := congrArg charsToNat h
  rwa [charsToNat_natToChars, charsToNat_natToChars] at this

/-- The decimal rendering never contains an underscore. -/
theorem underscore_not_mem_natToChars (n : Nat) : '_' ∉ natToChars n := by
  induction n using Nat.strong_induction_on with
  | _ n ih =>
    rw [natToChars_eq]
    by_cases hn : n < 10
    · simp only [hn, if_true, List.mem_singleton]
      exact fun h => digitChar_ne_underscore n h.symm
    · simp only [hn, if_false, List.mem_append, List.mem_singleton]
      rintro (h | h)
      · exact ih (n / 10) (Nat.div_lt_self (by omega) (by omega)) h
      · exact digitChar_ne_underscore (n % 10) h.symm

/-- Zero-padding a decimal rendering never introduces an underscore. -/
theorem underscore_not_mem_padStart2 (n : Nat) :
    '_' ∉ padStart2 (natToChars n) := by
  unfold padStart2
  intro h
  rcases List.mem_append.mp h with h | h
  · exact absurd (List.eq_of_mem_replicate h) (by decide)
  · exact underscore_not_mem_natToChars n h

/-- Taking a suffix of a decimal rendering never yields an underscore. -/
theorem underscore_not_mem_takeLast (k n : Nat) :
    '_' ∉ takeLast k (natToChars n) := by
  unfold takeLast
  intro h
  exact underscore_not_mem_natToChars n (List.drop_subset _ _ h)

/-- The `YYMMDD` date stamp never contains an underscore. -/
theorem underscore_not_mem_dateStampChars (d : JsDate) :
    '_' ∉ dateStampChars d := by
  unfold dateStampChars
  intro h
  rcases List.mem_append.mp h with h | h
  · rcases List.mem_append.mp h with h | h
    · exact underscore_not_mem_takeLast 2 d.year h
    · exact underscore_not_mem_padStart2 (d.month + 1) h
  · exact underscore_not_mem_padStart2 d.day h

/-- Unique decomposition of a list at a separator that occurs in
neither prefix part. -/
theorem suffix_eq_of_append_cons_eq {α : Type u} [DecidableEq α] (c : α) :
    ∀ (p₁ p₂ s₁ s₂ : List α), c ∉ p₁ → c ∉ p₂ →
      p₁ ++ c :: s₁ = p₂ ++ c :: s₂ → s₁ = s₂ := by
  intro p₁
  induction p₁ with
  | nil =>
    intro p₂ s₁ s₂ _ hp₂ h
    cases p₂ with
    | nil => simpa using h
    | cons b p₂' =>
      simp only [List.nil_append, List.cons_append, List.cons.injEq] at h
      exact absurd (h.1 ▸ List.mem_cons_self b p₂') hp₂
  | cons a p₁' ih =>
    intro p₂ s₁ s₂ hp₁ hp₂ h
    cases p₂ with
    | nil =>
      simp only [List.cons_append, List.nil_append, List.cons.injEq] at h
      exact absurd (h.1.symm ▸ List.mem_cons_self a p₁') hp₁
    | cons b p₂' =>
      simp only [List.cons_append, List.cons.injEq] at h
      exact ih p₂' s₁ s₂ (fun hm => hp₁ (List.mem_cons_of_mem a hm))
        (fun hm => hp₂ (List.mem_cons_of_mem b hm)) h.2

/-- Transaction identifiers with distinct sequence numbers are
distinct, whatever the two date stamps are. -/
theorem appTransId_injective_seq {d₁ d₂ : JsDate} {n₁ n₂ : Nat}
    (h : appTransId d₁ n₁ = appTransId d₂ n₂) : n₁ = n₂ := by
  have hdata : dateStampChars d₁ ++ '_' :: natToChars n₁ =
      dateStampChars d₂ ++ '_' :: natToChars n₂ := congrArg String.data h
  exact natToChars_injective
    (suffix_eq_of_append_cons_eq '_' (dateStampChars d₁) (dateStampChars d₂) _ _
      (underscore_not_mem_dateStampChars d₁) (underscore_not_mem_dateStampChars d₂) hdata)

/-- Number of successes of `filterMap id` equals the number of `some`s. -/
theorem length_filterMap_id {α : Type u} (l : List (Option α)) :
    (l.filterMap id).length = (l.filter Option.isSome).length := by
  induction l with
  | nil => rfl
  | cons a l ih => cases a <;> simp [ih]

/-! ## Claims -/

/-- C1: `receiveOrderCallback(p, m)` returns the success result
(`return_code 1`) exactly when `m` equals the hex HMAC-SHA256 of `p`
under the callback key `key2`; for any other `m` it returns the
authentication-failure result with a negative return code; and it never
throws — an exception during hashing is returned as the distinct error
result (`return_code 0`) carrying the exception message.  (Totality of
the Lean function is the never-throws part.) -/
theorem receiveOrderCallback_auth
    (hmac : String → String → Except String String) (key2 p m : String) :
    (∀ mac, hmac key2 p = Except.ok mac →
      ((receiveOrderCallback hmac key2 p m =
          { return_code := 1, return_message := "success" }) ↔ m = mac) ∧
      (m ≠ mac →
        receiveOrderCallback hmac key2 p m =
          { return_code := -1, return_message := "mac not equal" } ∧
        (receiveOrderCallback hmac key2 p m).return_code < 0)) ∧
    (∀ e, hmac key2 p = Except.error e →
      receiveOrderCallback hmac key2 p m =
        { return_code := 0, return_message := e }) := by
  constructor
  · intro mac hok
    unfold receiveOrderCallback
    rw [hok]
    constructor
    · constructor
      · intro h
        by_contra hne
        simp [hne] at h
      · intro h
        subst h
        simp
    · intro hne
      simp [hne]
  · intro e herr
    unfold receiveOrderCallback
    rw [herr]

/-- Witness for C1 at a concrete hash, payload and MACs. -/
theorem receiveOrderCallback_auth_witness :
    receiveOrderCallback hmacTag "key2" "payload" "mac:key2:payload" =
      { return_code := 1, return_message := "success" } ∧
    receiveOrderCallback hmacTag "key2" "payload" "spoof" =
      { return_code := -1, return_message := "mac not equal" } ∧
    receiveOrderCallback hmacThrow "key2" "payload" "mac:key2:payload" =
      { return_code := 0, return_message := "digest failure" } := by
  refine ⟨?_, ?_, ?_⟩
  · exact ((receiveOrderCallback_auth hmacTag "key2" "payload" "mac:key2:payload").1
      "mac:key2:payload" rfl).1.mpr rfl
  · exact (((receiveOrderCallback_auth hmacTag "key2" "payload" "spoof").1
      "mac:key2:payload" rfl).2 (by decide)).1
  · exact (receiveOrderCallback_auth hmacThrow "key2" "payload" "mac:key2:payload").2
      "digest failure" rfl

/-- C2: the claim fails on the code.  On a non-admin `searchSongs` miss
the handler responds `{ data: rows }` but caches the bare `rows` value;
a hit within the TTL is served from the cache without a store query
(second conjunct, `storeQueried = false`) yet replays the bare value,
which differs from the miss response body (third conjunct), so the two
identical requests do not return byte-identical payloads. -/
theorem searchSongs_cache_hit_mismatch :
    searchSongs "User" "t" 1 20 (Except.ok none)
        ⟨some (Json.arr [Json.str "row"]), none⟩ =
      Except.ok
        { status := 200, body := Json.obj [("data", Json.arr [Json.str "row"])]
          cacheRead := true
          cacheWrite := some (songsSearchKey "t" 1 20, Json.arr [Json.str "row"])
          storeQueried := true } ∧
    searchSongs "User" "t" 1 20 (Except.ok (some (Json.arr [Json.str "row"])))
        ⟨some (Json.arr [Json.str "row"]), none⟩ =
      Except.ok
        { status := 200, body := Json.arr [Json.str "row"], cacheRead := true
          cacheWrite := none, storeQueried := false } ∧
    Json.arr [Json.str "row"] ≠ Json.obj [("data", Json.arr [Json.str "row"])] :=
  ⟨rfl, rfl, fun h => Json.noConfusion h⟩

/-- C4: for search requests whose resolved role is `"Admin"`, the
handlers read nothing from and write nothing to the cache, the store is
always queried, and the outcome does not depend on the cache contents
at all. -/
theorem search_admin_bypasses_cache (term : String) (page limit : Nat)
    (cg cg' : Except String (Option Json))
    (q songs artists albums playlists users : QueryResult) :
    searchSongs "Admin" term page limit cg q =
      searchSongs "Admin" term page limit cg' q ∧
    (∀ o, searchSongs "Admin" term page limit cg q = Except.ok o →
      o.cacheRead = false ∧ o.cacheWrite = none ∧ o.storeQueried = true) ∧
    searchDefault "Admin" term cg songs artists albums playlists users =
      searchDefault "Admin" term cg' songs artists albums playlists users ∧
    (∀ o, searchDefault "Admin" term cg songs artists albums playlists users =
        Except.ok o →
      o.cacheRead = false ∧ o.cacheWrite = none ∧ o.storeQueried = true) := by
  refine ⟨by simp [searchSongs], ?_, by simp [searchDefault], ?_⟩
  · intro o h
    simp only [searchSongs, ne_eq, not_true_eq_false, if_false, Except.ok.injEq] at h
    subst h
    cases hq : q.error <;> simp [searchSongsMiss, hq]
  · intro o h
    simp only [searchDefault, ne_eq, not_true_eq_false, if_false, Except.ok.injEq] at h
    subst h
    by_cases he : defaultErrors songs artists albums playlists users = [] <;>
      simp [searchDefaultMiss, he]

/-- Witness for C4: a concrete admin request with a populated cache is
served fresh from the store with no cache effects. -/
theorem search_admin_bypasses_cache_witness :
    (searchSongsMiss "Admin" "t" 1 20 ⟨some (Json.arr []), none⟩ false).cacheRead = false ∧
    (searchSongsMiss "Admin" "t" 1 20 ⟨some (Json.arr []), none⟩ false).cacheWrite = none ∧
    (searchSongsMiss "Admin" "t" 1 20 ⟨some (Json.arr []), none⟩ false).storeQueried = true :=
  (search_admin_bypasses_cache "t" 1 20 (Except.ok (some (Json.arr []))) (Except.ok none)
    ⟨some (Json.arr []), none⟩ ⟨some (Json.arr []), none⟩ ⟨some (Json.arr []), none⟩
    ⟨some (Json.arr []), none⟩ ⟨some (Json.arr []), none⟩ ⟨some (Json.arr []), none⟩).2.1
    (searchSongsMiss "Admin" "t" 1 20 ⟨some (Json.arr []), none⟩ false) rfl

/-- C5: a default search in which some sub-query errors fails as a
whole: status 500, the body is exactly the aggregated list of the
failing sub-queries' messages (one per failing sub-query, in fan-out
order), no partial data is returned and nothing is cached. -/
theorem searchDefault_aggregates_errors (role term : String)
    (songs artists albums playlists users : QueryResult) (o : SearchOutcome)
    (hne : defaultErrors songs artists albums playlists users ≠ [])
    (ho : searchDefault role term (Except.ok none) songs artists albums playlists users =
      Except.ok o) :
    o.status = 500 ∧
    o.body = Json.obj [("error",
      Json.arr ((defaultErrors songs artists albums playlists users).map Json.str))] ∧
    o.cacheWrite = none ∧
    (defaultErrors songs artists albums playlists users).length =
      ([songs.error, artists.error, albums.error, playlists.error,
        users.error].filter Option.isSome).length := by
  have hmiss : ∀ didRead, searchDefaultMiss role term songs artists albums playlists users
      didRead = { status := 500
                  body := Json.obj [("error", Json.arr
                    ((defaultErrors songs artists albums playlists users).map Json.str))]
                  cacheRead := didRead, cacheWrite := none, storeQueried := true } := by
    intro didRead
    simp [searchDefaultMiss, hne]
  unfold searchDefault at ho
  by_cases hrole : role = "Admin"
  · subst hrole
    simp only [ne_eq, not_true_eq_false, if_false, Except.ok.injEq] at ho
    subst ho
    simp [hmiss, length_filterMap_id, defaultErrors]
  · simp only [ne_eq, hrole, not_false_eq_true, if_true, Except.ok.injEq] at ho
    subst ho
    simp [hmiss, length_filterMap_id, defaultErrors]

/-- Witness for C5: exactly one failing sub-query (users) yields a 500
whose error list has length 1 and carries that sub-query's message. -/
theorem searchDefault_aggregates_errors_witness :
    (searchDefaultMiss "User" "t" ⟨some (Json.arr []), none⟩ ⟨some (Json.arr []), none⟩
        ⟨some (Json.arr []), none⟩ ⟨some (Json.arr []), none⟩
        ⟨none, some "users query failed"⟩ true).status = 500 ∧
    (searchDefaultMiss "User" "t" ⟨some (Json.arr []), none⟩ ⟨some (Json.arr []), none⟩
        ⟨some (Json.arr []), none⟩ ⟨some (Json.arr []), none⟩
        ⟨none, some "users query failed"⟩ true).body =
      Json.obj [("error", Json.arr [Json.str "users query failed"])] ∧
    (searchDefaultMiss "User" "t" ⟨some (Json.arr []), none⟩ ⟨some (Json.arr []), none⟩
        ⟨some (Json.arr []), none⟩ ⟨some (Json.arr []), none⟩
        ⟨none, some "users query failed"⟩ true).cacheWrite = none := by
  have h := searchDefault_aggregates_errors "User" "t" ⟨some (Json.arr []), none⟩
    ⟨some (Json.arr []), none⟩ ⟨some (Json.arr []), none⟩ ⟨some (Json.arr []), none⟩
    ⟨none, some "users query failed"⟩
    (searchDefaultMiss "User" "t" ⟨some (Json.arr []), none⟩ ⟨some (Json.arr []), none⟩
      ⟨some (Json.arr []), none⟩ ⟨some (Json.arr []), none⟩
      ⟨none, some "users query failed"⟩ true)
    (by decide) rfl
  exact ⟨h.1, h.2.1, h.2.2.1⟩

/-- C8: the claim fails on the code.  No handler wraps `redis.get` in a
`try/catch`, so a rejected cache read propagates out of the handler and
the request fails instead of degrading to a direct store read: the
three cited read paths hand back the cache error itself. -/
theorem cache_failure_fails_request :
    searchDefault "User" "t" (Except.error "redis unavailable")
        ⟨some (Json.arr []), none⟩ ⟨some (Json.arr []), none⟩ ⟨some (Json.arr []), none⟩
        ⟨some (Json.arr []), none⟩ ⟨some (Json.arr []), none⟩ =
      Except.error "redis unavailable" ∧
    searchSongs "User" "t" 1 20 (Except.error "redis unavailable")
        ⟨some (Json.arr []), none⟩ =
      Except.error "redis unavailable" ∧
    getAllSongs rowsStr 1 10 (Except.error "redis unavailable")
        ⟨some (Json.arr []), none⟩ =
      Except.error "redis unavailable" :=
  ⟨rfl, rfl, rfl⟩

/-- C9: the claim fails on the code.  `deleteSong` passes
`data.title + ".mp3"` to the blob store — it never resolves the Primary
artist link, so the deleted key lacks the `<Artist>/` prefix that the
presigned-URL handlers (and hence the stored objects) use; the delete
response itself is 202 regardless. -/
theorem deleteSong_wrong_blob_key :
    (deleteSong "42" (Except.ok "Track")).blobDeleteKey = some "Track.mp3" ∧
    (deleteSong "42" (Except.ok "Track")).status = 202 ∧
    deleteSongBlobKey "Track" ≠ presignedFileName "Artist" "Track" :=
  ⟨rfl, rfl, by decide⟩

/-- Serialization of a payload entry carrying a defined value. -/
theorem sentFields_cons_some (k₀ : String) (x : JVal) (l : List (String × Option JVal)) :
    sentFields ((k₀, some x) :: l) = (k₀, x) :: sentFields l := rfl

/-- Serialization of a payload entry carrying `undefined`. -/
theorem sentFields_cons_none (k₀ : String) (l : List (String × Option JVal)) :
    sentFields ((k₀, none) :: l) = sentFields l := rfl

/-- Membership in the serialized form of one conditional spread. -/
theorem mem_sentFields_spreadIf (k k₀ : String) (v : JVal) (v₀ : Option JVal) :
    (k, v) ∈ sentFields (spreadIf k₀ v₀) ↔ k = k₀ ∧ v₀ = some v ∧ v.truthy := by
  cases v₀ with
  | none => simp [spreadIf, sentFields]
  | some x =>
    by_cases hx : x.truthy
    · have h1 : spreadIf k₀ (some x) = [(k₀, some x)] := by simp [spreadIf, hx]
      rw [h1, sentFields_cons_some]
      have h2 : sentFields ([] : List (String × Option JVal)) = [] := rfl
      rw [h2]
      simp only [List.mem_singleton, Prod.mk.injEq, Option.some.injEq]
      constructor
      · rintro ⟨rfl, rfl⟩
        exact ⟨rfl, rfl, hx⟩
      · rintro ⟨rfl, rfl, -⟩
        exact ⟨rfl, rfl⟩
    · have h1 : spreadIf k₀ (some x) = [] := by simp [spreadIf, hx]
      rw [h1]
      constructor
      · intro hm
        exact absurd hm (List.not_mem_nil _)
      · rintro ⟨rfl, heq, hv⟩
        obtain rfl := Option.some.inj heq
        exact absurd hv hx

/-- Serialization distributes over payload concatenation. -/
theorem sentFields_append (l₁ l₂ : List (String × Option JVal)) :
    sentFields (l₁ ++ l₂) = sentFields l₁ ++ sentFields l₂ := by
  simp [sentFields, List.filterMap_append]

/-- Keys present with value `undefined` never come from a conditional
spread. -/
theorem spreadIf_none_not_mem (k' k₀ : String) (v₀ : Option JVal) :
    (k', (none : Option JVal)) ∉ spreadIf k₀ v₀ := by
  cases v₀ with
  | none => simp [spreadIf]
  | some x =>
    by_cases hx : x.truthy <;> simp [spreadIf, hx]

/-- C3 counterexample: the claim as stated fails.  A request body for
`updateSong` that supplies only `views = 0` (a falsy value) produces an
empty update payload — the supplied field is *not* contained in the
payload sent to the store, contradicting "contains exactly the supplied
fields". -/
theorem updateSong_drops_supplied_field :
    (⟨none, none, none, none, none, none, some (JVal.num 0)⟩ : SongUpdateBody).views =
      some (JVal.num 0) ∧
    updateSongPayload ⟨none, none, none, none, none, none, some (JVal.num 0)⟩ = [] ∧
    sentFields (updateSongPayload
      ⟨none, none, none, none, none, none, some (JVal.num 0)⟩) = [] :=
  ⟨rfl, rfl, rfl⟩

/-- C3 (amended): the update payload sent to the store contains exactly
the supplied fields whose values are truthy — supplied falsy values are
dropped along with omitted ones, and `updateArtist` additionally always
spreads the `name` key (sent whenever `name` is supplied, truthy or
not, and dropped at serialization when it is omitted).  Omitted fields
are never sent, so they are never overwritten. -/
theorem update_payloads_sparse (bs : SongUpdateBody) (ba : ArtistUpdateBody)
    (k : String) (v : JVal) :
    ((k, v) ∈ sentFields (updateSongPayload bs) ↔
      ((k = "title" ∧ bs.title = some v ∧ v.truthy) ∨
       (k = "description" ∧ bs.description = some v ∧ v.truthy) ∨
       (k = "thumbnailurl" ∧ bs.thumbnailurl = some v ∧ v.truthy) ∨
       (k = "duration" ∧ bs.duration = some v ∧ v.truthy) ∨
       (k = "releasedate" ∧ bs.releasedate = some v ∧ v.truthy) ∨
       (k = "genre" ∧ bs.genre = some v ∧ v.truthy) ∨
       (k = "views" ∧ bs.views = some v ∧ v.truthy))) ∧
    ((k, v) ∈ sentFields (updateArtistPayload ba) ↔
      ((k = "name" ∧ ba.name = some v) ∨
       (k = "description" ∧ ba.description = some v ∧ v.truthy) ∨
       (k = "avatarurl" ∧ ba.avatarurl = some v ∧ v.truthy) ∨
       (k = "country" ∧ ba.country = some v ∧ v.truthy))) ∧
    ("name", ba.name) ∈ updateArtistPayload ba ∧
    (∀ k', (k', (none : Option JVal)) ∉ updateSongPayload bs) := by
  refine ⟨?_, ?_, ?_, ?_⟩
  · simp only [updateSongPayload, sentFields_append, List.mem_append,
      mem_sentFields_spreadIf]
    simp only [or_assoc]
  · have hname : (k, v) ∈ sentFields [("name", ba.name)] ↔
        (k = "name" ∧ ba.name = some v) := by
      cases hn : ba.name with
      | none =>
        rw [sentFields_cons_none]
        have h2 : sentFields ([] : List (String × Option JVal)) = [] := rfl
        rw [h2]
        simp
      | some x =>
        rw [sentFields_cons_some]
        have h2 : sentFields ([] : List (String × Option JVal)) = [] := rfl
        rw [h2]
        simp only [List.mem_singleton, Prod.mk.injEq, Option.some.injEq]
        constructor
        · rintro ⟨rfl, rfl⟩
          exact ⟨rfl, rfl⟩
        · rintro ⟨rfl, rfl⟩
          exact ⟨rfl, rfl⟩
    have hsplit : updateArtistPayload ba =
        [("name", ba.name)] ++ (spreadIf "description" ba.description ++
          spreadIf "avatarurl" ba.avatarurl ++ spreadIf "country" ba.country) := rfl
    rw [hsplit]
    simp only [sentFields_append, List.mem_append, mem_sentFields_spreadIf, hname]
    simp only [or_assoc]
  · exact List.mem_cons_self _ _
  · intro k' hk
    simp only [updateSongPayload, List.mem_append] at hk
    rcases hk with ((((((h | h) | h) | h) | h) | h) | h) <;>
      exact spreadIf_none_not_mem _ _ _ h

/-- Positions past the head of the artist list always yield `Featured`
links, in input order. -/
theorem addSongLinksFrom_succ (songid : String) :
    ∀ (l : List String) (i : Nat),
      addSongLinksFrom songid (i + 1) l =
        l.map fun a =>
          { songid := songid, artistid := a, relation := Relation.Featured } := by
  intro l
  induction l with
  | nil => intro i; rfl
  | cons a rest ih =>
    intro i
    simp only [addSongLinksFrom, Nat.succ_ne_zero, if_false, List.map_cons,
      List.cons.injEq]
    exact ⟨by trivial, ih (i + 1)⟩

/-- A list of `Featured` link rows contains no `Primary` row. -/
theorem featured_map_filter_primary (songid : String) (rest : List String) :
    (rest.map fun a =>
      ({ songid := songid, artistid := a, relation := Relation.Featured } : LinkRow)).filter
        (fun r => r.relation == Relation.Primary) = [] := by
  induction rest with
  | nil => rfl
  | cons b bs ih => simpa using ih

/-- Filtering a list of `Featured` link rows for `Featured` and
projecting the artist ids recovers the artist list. -/
theorem featured_map_filter_featured (songid : String) (rest : List String) :
    ((rest.map fun a =>
      ({ songid := songid, artistid := a, relation := Relation.Featured } : LinkRow)).filter
        (fun r => r.relation == Relation.Featured)).map LinkRow.artistid = rest := by
  induction rest with
  | nil => rfl
  | cons b bs ih => simpa using ih

/-- C6: creating a song with supplied artist list `a₀ :: rest` creates
one link row per artist, the first one `Primary` (for `a₀`) and all
later ones `Featured` (for `rest`, in input order); filtering shows the
created links contain exactly one `Primary` row and it belongs to the
head of the input list, so reordering the input changes which artist is
Primary. -/
theorem addSong_links_spec (songid a0 : String) (rest : List String) :
    addSongLinks songid (a0 :: rest) =
      { songid := songid, artistid := a0, relation := Relation.Primary } ::
        (rest.map fun a =>
          { songid := songid, artistid := a, relation := Relation.Featured }) ∧
    (addSongLinks songid (a0 :: rest)).filter
        (fun r => r.relation == Relation.Primary) =
      [{ songid := songid, artistid := a0, relation := Relation.Primary }] ∧
    ((addSongLinks songid (a0 :: rest)).filter
        (fun r => r.relation == Relation.Featured)).map LinkRow.artistid = rest ∧
    (addSongLinks songid (a0 :: rest)).length = rest.length + 1 := by
  have h0 : addSongLinks songid (a0 :: rest) =
      { songid := songid, artistid := a0, relation := Relation.Primary } ::
        (rest.map fun a =>
          { songid := songid, artistid := a, relation := Relation.Featured }) := by
    simp only [addSongLinks, addSongLinksFrom, if_true]
    exact congrArg _ (addSongLinksFrom_succ songid rest 0)
  refine ⟨h0, ?_, ?_, ?_⟩
  · rw [h0, List.filter_cons]
    simpa using featured_map_filter_primary songid rest
  · rw [h0, List.filter_cons]
    simpa using featured_map_filter_featured songid rest
  · rw [h0]
    simp

/-- The counter after any `createOrder` call is the old counter plus
one, whatever the hashing and gateway outcomes are. -/
theorem createOrder_fst (app_id key1 : String)
    (hmac : String → String → Except String String)
    (gateway : ZaloOrder → Except String Json)
    (stringifyItems : List OrderItem → String) (embedStr : String)
    (orderID : Nat) (d : JsDate) (nowMs : Nat)
    (user_id : String) (items : List OrderItem) :
    (createOrder app_id key1 hmac gateway stringifyItems embedStr orderID d
      nowMs user_id items).1 = orderID + 1 := rfl

/-- A successful `createOrder` call echoes the locally generated
transaction id for the incremented counter. -/
theorem createOrder_ok_app_trans_id {app_id key1 : String}
    {hmac : String → String → Except String String}
    {gateway : ZaloOrder → Except String Json}
    {stringifyItems : List OrderItem → String} {embedStr : String}
    {orderID : Nat} {d : JsDate} {nowMs : Nat}
    {user_id : String} {items : List OrderItem} {v : ZaloCreateResult}
    (h : (createOrder app_id key1 hmac gateway stringifyItems embedStr orderID d
      nowMs user_id items).2 = Except.ok v) :
    v.app_trans_id = appTransId d (orderID + 1) := by
  simp only [createOrder] at h
  split at h
  · exact absurd h (by simp)
  · split at h
    · exact absurd h (by simp)
    · obtain rfl := Except.ok.inj h
      rfl

/-- C7: two `createOrder` calls in the same process — the second one
running on the counter state left by the first, which was seeded with
`parseInt(Date.now().toString().slice(-6))` at construction — return
objects that both echo the locally generated transaction id of shape
`YYMMDD_<sequence>`, with strictly increasing sequence components
(seed+1, then seed+2), and the two `app_trans_id` values are distinct
even if the date stamp changed between the calls. -/
theorem createOrder_two_calls (app_id key1 embedStr uid₁ uid₂ : String)
    (stringifyItems : List OrderItem → String)
    (hmac : String → String → Except String String)
    (gw₁ gw₂ : ZaloOrder → Except String Json)
    (bootMs now₁ now₂ : Nat) (d₁ d₂ : JsDate)
    (items₁ items₂ : List OrderItem) (v₁ v₂ : ZaloCreateResult)
    (h₁ : (createOrder app_id key1 hmac gw₁ stringifyItems embedStr
      (initOrderID bootMs) d₁ now₁ uid₁ items₁).2 = Except.ok v₁)
    (h₂ : (createOrder app_id key1 hmac gw₂ stringifyItems embedStr
      ((createOrder app_id key1 hmac gw₁ stringifyItems embedStr
        (initOrderID bootMs) d₁ now₁ uid₁ items₁).1)
      d₂ now₂ uid₂ items₂).2 = Except.ok v₂) :
    v₁.app_trans_id = appTransId d₁ (initOrderID bootMs + 1) ∧
    v₂.app_trans_id = appTransId d₂ (initOrderID bootMs + 2) ∧
    initOrderID bootMs + 1 < initOrderID bootMs + 2 ∧
    v₁.app_trans_id ≠ v₂.app_trans_id := by
  have a₁ := createOrder_ok_app_trans_id h₁
  have a₂ := createOrder_ok_app_trans_id h₂
  rw [createOrder_fst] at a₂
  have a₂' : v₂.app_trans_id = appTransId d₂ (initOrderID bootMs + 2) := by
    rw [a₂]
  refine ⟨a₁, a₂', by omega, ?_⟩
  intro heq
  rw [a₁, a₂'] at heq
  have := appTransId_injective_seq heq
  omega

/-- Witness for C7: two concrete calls with the counter seeded from a
concrete clock value. -/
theorem createOrder_two_calls_witness :
    appTransId ⟨2025, 0, 5⟩ (initOrderID 1736000000123 + 1) ≠
      appTransId ⟨2025, 0, 5⟩ (initOrderID 1736000000123 + 2) :=
  (createOrder_two_calls "app" "k1" "embed" "u1" "u2" itemsStr hmacTag
    gatewayOk gatewayOk 1736000000123 0 0 ⟨2025, 0, 5⟩ ⟨2025, 0, 5⟩ [] []
    { data := Json.null, app_trans_id := appTransId ⟨2025, 0, 5⟩ (initOrderID 1736000000123 + 1) }
    { data := Json.null, app_trans_id := appTransId ⟨2025, 0, 5⟩ (initOrderID 1736000000123 + 2) }
    rfl rfl).2.2.2

/-- C10: `createOrder` increments the process-local counter before the
upstream submission; when the gateway call rejects, the error
propagates to the caller and the counter keeps its incremented value —
the failed attempt permanently consumes a sequence number. -/
theorem createOrder_failure_keeps_counter (app_id key1 embedStr uid : String)
    (stringifyItems : List OrderItem → String)
    (hmacHex : String → String → String)
    (gateway : ZaloOrder → Except String Json) (e : String)
    (hgw : ∀ o, gateway o = Except.error e)
    (orderID : Nat) (d : JsDate) (nowMs : Nat) (items : List OrderItem) :
    createOrder app_id key1 (fun k s => Except.ok (hmacHex k s)) gateway
      stringifyItems embedStr orderID d nowMs uid items =
      (orderID + 1, Except.error e) := by
  simp [createOrder, hgw]

/-- Witness for C10: a concrete failing gateway call leaves the counter
at its incremented value and hands the caller the rejection. -/
theorem createOrder_failure_keeps_counter_witness :
    createOrder "app" "k1" (fun k s => Except.ok ("mac:" ++ k ++ ":" ++ s))
      gatewayDown itemsStr "embed" 7 ⟨2025, 0, 5⟩ 0 "u" [] =
      (8, Except.error "network down") :=
  createOrder_failure_keeps_counter "app" "k1" "embed" "u" itemsStr
    (fun k s => "mac:" ++ k ++ ":" ++ s) gatewayDown "network down"
    (fun _ => rfl) 7 ⟨2025, 0, 5⟩ 0 []

end Musik
